import Mathlib

/-!
Shallow embedding of the summary-statistics and date-alignment core of
`scripts/paper/figures.py` (covid19_inference_forecast).

Numeric arrays are modelled as `List ℚ` (samples × days as `List (List ℚ)`).
The numpy reductions used by the figures (`np.diff`, `np.cumsum`, `np.insert`,
`np.percentile` with the default linear interpolation, `np.median`) are
embedded below, together with the helper functions `truncate_number`,
`print_median_CI`, `conv_time_to_mpl_dates`, and the PREPARE DATA block of
`create_figure_3_timeseries` / the forecast block of `create_figure_0`.
Python exceptions are modelled with `Except`.
-/

namespace Covid19Figures

set_option maxRecDepth 4000 in
set_option maxRecDepth 4000 in
set_option maxRecDepth 4000 in
/-- Error taxonomy for the embedded core: `indexError` models a Python
`IndexError` (indexing an empty array), `emptyInput` the failure of
`np.percentile` on a zero-length array, `typeError` a failed float
conversion (`TypeError`/`ValueError` from `float(...)`). -/
inductive NpErr where
  | indexError
  | emptyInput
  | typeError
deriving DecidableEq

/-- `np.diff`: first differences, `[x1 - x0, x2 - x1, ...]`. -/
def np_diff : List ℚ → List ℚ
  | x :: y :: rest => (y - x) :: np_diff (y :: rest)
  | _ => []

/-- Running sums starting from accumulator `acc` (helper for `np_cumsum`). -/
def cumsumFrom (acc : ℚ) : List ℚ → List ℚ
  | [] => []
  | x :: xs => (acc + x) :: cumsumFrom (acc + x) xs

/-- `np.cumsum` along the day axis of a single row. -/
def np_cumsum (l : List ℚ) : List ℚ :=
  cumsumFrom 0 l

/-- `np.insert(row, 0, 0)`: a zero inserted at position 0 of a row
(the per-row effect of `np.insert(m, 0, 0, axis=1)`). -/
def np_insert0 (l : List ℚ) : List ℚ :=
  0 :: l

/-- numpy's linear-interpolation lookup at fractional position `h` into an
already sorted array: with `i = ⌊h⌋`, the value is
`xs[i] + (h - i) * (xs[i+1] - xs[i])`, where the access at `i + 1`
falls back to `xs[i]` at the top edge. -/
def interpSorted (xs : List ℚ) (h : ℚ) : ℚ :=
  xs.getD (⌊h⌋).toNat 0 +
    (h - ((⌊h⌋).toNat : ℚ)) *
      (xs.getD ((⌊h⌋).toNat + 1) (xs.getD (⌊h⌋).toNat 0) - xs.getD (⌊h⌋).toNat 0)

/-- `np.percentile(xs, q)` with the default linear interpolation:
sort the samples and interpolate at position `q / 100 * (n - 1)`. -/
def np_percentile (xs : List ℚ) (q : ℚ) : ℚ :=
  interpSorted (List.insertionSort (· ≤ ·) xs) (q / 100 * ((xs.length : ℚ) - 1))

/-- `np.median(xs)`: the 50th percentile (for even lengths the linear
interpolation averages the two middle elements, as numpy does). -/
def np_median (xs : List ℚ) : ℚ :=
  np_percentile xs 50

/-- `np.percentile` raises on a zero-length input
(`IndexError: cannot do a non-empty take from an empty axes`); on a
non-empty input it returns the interpolated value. -/
def np_percentile_exc (xs : List ℚ) (q : ℚ) : Except NpErr ℚ :=
  if xs = [] then Except.error NpErr.emptyInput
  else Except.ok (np_percentile xs q)

/-- Round to the nearest integer, ties to even (the rounding used when
rendering at fixed precision). -/
def roundHalfEven (x : ℚ) : ℤ :=
  if x - (⌊x⌋ : ℚ) < 1 / 2 then ⌊x⌋
  else if (1 : ℚ) / 2 < x - (⌊x⌋ : ℚ) then ⌊x⌋ + 1
  else if ⌊x⌋ % 2 = 0 then ⌊x⌋ else ⌊x⌋ + 1

/-- `truncate_number(number, precision)`: fixed-point decimal rendering,
Python's `"{:.Nf}".format(number)` (zero-padded fractional digits,
ties rounded to even). -/
def truncate_number (number : ℚ) (precision : ℕ) : String :=
  let scaled := roundHalfEven (number * (10 : ℚ) ^ precision)
  let n := scaled.natAbs
  let ip := n / 10 ^ precision
  let fp := n % 10 ^ precision
  let sign := if scaled < 0 then "-" else ""
  if precision = 0 then sign ++ toString ip
  else
    let fs := toString fp
    sign ++ toString ip ++ "." ++
      String.mk (List.replicate (precision - fs.length) '0') ++ fs

/-- `print_median_CI(arr, prec)`: median and the 2.5 / 97.5 empirical
percentiles rendered into `"Median: {m}\nCI: [{lo}, {hi}]"`.  `np.median`
of an empty array yields `nan` without raising, so the median string is
always formed; the subsequent `np.percentile` calls raise on empty input
and that error propagates. -/
def print_median_CI (arr : List ℚ) (prec : ℕ) : Except NpErr String :=
  let med := truncate_number (np_median arr) prec
  match np_percentile_exc arr (5 / 2), np_percentile_exc arr (195 / 2) with
  | Except.ok p1, Except.ok p2 =>
      Except.ok ("Median: " ++ med ++ "\nCI: [" ++
        truncate_number p1 prec ++ ", " ++ truncate_number p2 prec ++ "]")
  | Except.error e, _ => Except.error e
  | _, Except.error e => Except.error e

/-! ### Calendar mapper -/

/-- Day number of a proleptic-Gregorian civil date, counted from
1970-01-01 (the standard days-from-civil algorithm; `y ≥ 1`,
`1 ≤ m ≤ 12`). -/
def civilToDays (y m d : ℕ) : ℤ :=
  let ys := if m ≤ 2 then y - 1 else y
  let era := ys / 400
  let yoe := ys % 400
  let doy := (153 * (if 2 < m then m - 3 else m + 9) + 2) / 5 + d - 1
  let doe := yoe * 365 + yoe / 4 - yoe / 100 + doy
  (era * 146097 + doe : ℤ) - 719468

/-- `date_data_begin = datetime.datetime(2020, 3, 1)` as a day number. -/
def date_data_begin : ℤ :=
  civilToDays 2020 3 1

/-- `diff_data_sim = 16`: days the simulation starts before the data. -/
def diff_data_sim : ℕ := 16

/-- `num_days_futu = 28`: days to forecast. -/
def num_days_futu : ℕ := 28

/-- `date_begin_sim = date_data_begin - datetime.timedelta(days=diff_data_sim)`. -/
def date_begin_sim : ℤ :=
  date_data_begin - diff_data_sim

/-- `num_days_data = (date_data_end - date_data_begin).days` is data
dependent; conversely the last data day sits `num_days_data` days after
`date_data_begin`. -/
def date_data_end (num_days_data : ℕ) : ℤ :=
  date_data_begin + num_days_data

/-- `diff_to_0 = num_days_data + diff_data_sim`: simulation days until the
forecast starts. -/
def diff_to_0 (num_days_data : ℕ) : ℕ :=
  num_days_data + diff_data_sim

/-- `matplotlib.dates.date2num`: an affine day count relative to the
matplotlib epoch 1970-01-01 (fractional days carry through). -/
def date2num (d : ℚ) : ℚ :=
  d - (civilToDays 1970 1 1 : ℚ)

/-- `conv_time_to_mpl_dates(t)` on a single numeric offset:
`date2num(timedelta(days=float(t)) + date_begin_sim)`. -/
def conv_time_to_mpl_dates (t : ℚ) : ℚ :=
  date2num ((date_begin_sim : ℚ) + t)

/-- `mpl_dates_futu = conv_time_to_mpl_dates(np.arange(0, num_days_futu + 1)) + diff_to_0`
from `create_figure_3_timeseries` (time 0 is the last recorded data point). -/
def mpl_dates_futu (num_days_data : ℕ) : List ℚ :=
  (List.range (num_days_futu + 1)).map
    (fun j : ℕ => conv_time_to_mpl_dates (j : ℚ) + (diff_to_0 num_days_data : ℚ))

/-! ### Dynamic-typing model of `conv_time_to_mpl_dates`

The Python function takes either a numeric scalar or an iterable; the
`try` branch iterates and converts each entry with `float`, the bare
`except` falls back to converting the whole argument with `float`.  A
value is modelled as a number, a sequence, or a non-numeric object. -/

inductive PyVal where
  | num (q : ℚ)
  | seq (l : List PyVal)
  | other

/-- `float(v)`: succeeds exactly on numbers, raises otherwise. -/
def pyFloat : PyVal → Except NpErr ℚ
  | PyVal.num q => Except.ok q
  | _ => Except.error NpErr.typeError

/-- Is `v` a number? -/
def isNum : PyVal → Bool
  | PyVal.num _ => true
  | _ => false

/-- Is `v` a numeric offset: a number, or a sequence of numbers? -/
def isNumericOffset : PyVal → Bool
  | PyVal.num _ => true
  | PyVal.seq l => l.all isNum
  | PyVal.other => false

/-- The list comprehension `[float(x) for x in l]`: stops at the first
entry whose conversion raises. -/
def tryMapFloat : List PyVal → Except NpErr (List ℚ)
  | [] => Except.ok []
  | v :: vs =>
    match pyFloat v with
    | Except.error e => Except.error e
    | Except.ok q =>
      match tryMapFloat vs with
      | Except.error e => Except.error e
      | Except.ok qs => Except.ok (q :: qs)

/-- Result of `conv_time_to_mpl_dates`: an array of date numbers or a
single date number. -/
inductive MplDates where
  | arr (l : List ℚ)
  | scalar (q : ℚ)

/-- `conv_time_to_mpl_dates` with its `try`/`except`: iterate and convert
each entry (only sequences are iterable); on any failure fall back to
converting the whole argument as a single float. -/
def conv_time_to_mpl_dates_dyn (v : PyVal) : Except NpErr MplDates :=
  match v with
  | PyVal.seq l =>
    match tryMapFloat l with
    | Except.ok qs =>
        Except.ok (MplDates.arr (qs.map (fun q => date2num ((date_begin_sim : ℚ) + q))))
    | Except.error _ =>
      match pyFloat (PyVal.seq l) with
      | Except.ok q => Except.ok (MplDates.scalar (date2num ((date_begin_sim : ℚ) + q)))
      | Except.error e => Except.error e
  | w =>
    match pyFloat w with
    | Except.ok q => Except.ok (MplDates.scalar (date2num ((date_begin_sim : ℚ) + q)))
    | Except.error e => Except.error e

/-! ### Series aligner -/

/-- The arrays produced by the PREPARE DATA block of
`create_figure_3_timeseries`. -/
structure PreparedData where
  new_c_obsd : List ℚ
  cum_c_obsd : List ℚ
  new_c_past : List (List ℚ)
  new_c_futu : List (List ℚ)
  cum_c_past : List (List ℚ)
  cum_c_futu : List (List ℚ)
deriving DecidableEq

/-- The PREPARE DATA block of `create_figure_3_timeseries`:

    new_c_obsd = np.diff(cases_obs)
    cum_c_obsd = cases_obs
    new_c_past = trace["new_cases"][:, :num_days_data]
    new_c_futu = trace["new_cases"][:, num_days_data:]
    cum_c_past = np.cumsum(np.insert(new_c_past, 0, 0, axis=1), axis=1) + cases_obs[0]
    cum_c_futu = np.cumsum(np.insert(new_c_futu, 0, 0, axis=1), axis=1) + cases_obs[-1]

numpy slicing never raises; the only possible exception is the
`IndexError` from `cases_obs[0]` / `cases_obs[-1]` on an empty array. -/
def prepareData (cases_obs : List ℚ) (new_cases : List (List ℚ))
    (num_days_data : ℕ) : Except NpErr PreparedData :=
  if cases_obs = [] then Except.error NpErr.indexError
  else Except.ok
    { new_c_obsd := np_diff cases_obs
      cum_c_obsd := cases_obs
      new_c_past := new_cases.map (fun r => r.take num_days_data)
      new_c_futu := new_cases.map (fun r => r.drop num_days_data)
      cum_c_past := new_cases.map (fun r =>
        (np_cumsum (np_insert0 (r.take num_days_data))).map (· + cases_obs.headD 0))
      cum_c_futu := new_cases.map (fun r =>
        (np_cumsum (np_insert0 (r.drop num_days_data))).map (· + cases_obs.getLastD 0)) }

/-- The cumulative forecast of `create_figure_0`:

    cases_futu = np.cumsum(trace_scen["new_cases"][:, num_days_data:].T, axis=0) + cases_obs[-1]

(the transpose makes `axis=0` the day axis, so per sample row this is the
running sum of the future draws anchored at `cases_obs[-1]`; the
statistics are then taken along the other axis).  `cases_obs[-1]` raises
`IndexError` on empty data. -/
def cases_futu_fig0 (cases_obs : List ℚ) (new_cases : List (List ℚ))
    (num_days_data : ℕ) : Except NpErr (List (List ℚ)) :=
  if cases_obs = [] then Except.error NpErr.indexError
  else Except.ok (new_cases.map (fun r =>
    (np_cumsum (r.drop num_days_data)).map (· + cases_obs.getLastD 0)))

/-! ### Interval summarizer -/

/-- Median and symmetric credible-interval bounds for one day column. -/
structure SummaryInterval where
  lower : ℚ
  median : ℚ
  upper : ℚ
deriving DecidableEq

/-- Day column `j` of a sample matrix (one entry per sample row). -/
def column (M : List (List ℚ)) (j : ℕ) : List ℚ :=
  M.map (fun r => r.getD j 0)

/-- The per-day summary the figures compute inline:
`np.percentile(col, q=(1-coverage)/2*100)`, `np.median(col)`,
`np.percentile(col, q=(1-(1-coverage)/2)*100)` over the sample axis
(the source instantiates `coverage` at 0.95 and 0.75). -/
def summarize (M : List (List ℚ)) (coverage : ℚ) (j : ℕ) : SummaryInterval :=
  { lower := np_percentile (column M j) ((1 - coverage) / 2 * 100)
    median := np_median (column M j)
    upper := np_percentile (column M j) ((1 - (1 - coverage) / 2) * 100) }

end Covid19Figures

/-! ### Derived instances and shared lemmas -/

deriving instance DecidableEq for Except

namespace Covid19Figures

/-- Shifted running sums invert first differences: summing the differences
of `y :: t` from accumulator `acc` and adding back `y - acc` recovers `t`. -/
lemma cumsumFrom_diff_shift :
    ∀ (t : List ℚ) (y acc : ℚ),
      (cumsumFrom acc (np_diff (y :: t))).map (· + (y - acc)) = t := by
  intro t
  induction t with
  | nil => intro y acc; simp [np_diff, cumsumFrom]
  | cons z t ih =>
    intro y acc
    show ((acc + (z - y)) :: cumsumFrom (acc + (z - y)) (np_diff (z :: t))).map
        (· + (y - acc)) = z :: t
    rw [List.map_cons]
    have h1 : acc + (z - y) + (y - acc) = z := by ring
    have h2 : y - acc = z - (acc + (z - y)) := by ring
    rw [h1, h2, ih z (acc + (z - y))]

/-- `cumsumFrom` preserves length. -/
lemma cumsumFrom_length : ∀ (l : List ℚ) (acc : ℚ), (cumsumFrom acc l).length = l.length := by
  intro l
  induction l with
  | nil => intro acc; rfl
  | cons x t ih => intro acc; simpa [cumsumFrom] using ih (acc + x)

/-- The default value of `getD` is irrelevant at an in-bounds index. -/
lemma getD_default_irrel (l : List ℚ) (i : ℕ) (d d' : ℚ) (h : i < l.length) :
    l.getD i d = l.getD i d' := by
  rw [List.getD_eq_getElem l d h, List.getD_eq_getElem l d' h]

/-- In a sorted list, `getD` is monotone over in-bounds indices. -/
lemma sorted_getD_mono {s : List ℚ} (hs : List.Sorted (· ≤ ·) s) {a b : ℕ} (hab : a ≤ b)
    (hb : b < s.length) : s.getD a 0 ≤ s.getD b 0 := by
  have ha : a < s.length := Nat.lt_of_le_of_lt hab hb
  rw [List.getD_eq_getElem s 0 ha, List.getD_eq_getElem s 0 hb]
  have h := hs.rel_get_of_le (a := ⟨a, ha⟩) (b := ⟨b, hb⟩) hab
  simpa using h

/-- The interpolation index `⌊h⌋` is in bounds when `0 ≤ h ≤ n - 1`. -/
lemma floor_idx_lt {n : ℕ} (_hn : 0 < n) {h : ℚ} (h0 : 0 ≤ h) (h1 : h ≤ (n : ℚ) - 1) :
    (⌊h⌋).toNat < n := by
  have hf0 : 0 ≤ ⌊h⌋ := Int.floor_nonneg.mpr h0
  have hfn : ⌊h⌋ ≤ (n : ℤ) - 1 := by
    have h2 : ⌊h⌋ ≤ ⌊(n : ℚ) - 1⌋ := Int.floor_le_floor h1
    have h3 : ((n : ℚ) - 1) = (((n : ℤ) - 1 : ℤ) : ℚ) := by push_cast; ring
    rw [h3, Int.floor_intCast] at h2
    exact h2
  omega

/-- For nonnegative `h` the natural interpolation index casts back to `⌊h⌋`. -/
lemma floor_toNat_cast {h : ℚ} (h0 : 0 ≤ h) : (((⌊h⌋).toNat : ℕ) : ℚ) = ((⌊h⌋ : ℤ) : ℚ) := by
  have h1 := Int.toNat_of_nonneg (Int.floor_nonneg.mpr h0)
  exact_mod_cast congrArg (fun z : ℤ => (z : ℚ)) h1

/-- The interpolation fraction is nonnegative. -/
lemma frac_nonneg {h : ℚ} (h0 : 0 ≤ h) : 0 ≤ h - (((⌊h⌋).toNat : ℕ) : ℚ) := by
  rw [floor_toNat_cast h0]
  exact sub_nonneg.mpr (Int.floor_le h)

/-- The interpolation fraction is at most one. -/
lemma frac_le_one {h : ℚ} (h0 : 0 ≤ h) : h - (((⌊h⌋).toNat : ℕ) : ℚ) ≤ 1 := by
  rw [floor_toNat_cast h0]
  have h1 := Int.lt_floor_add_one h
  linarith

/-- In a sorted list the upper interpolation node dominates the lower one. -/
lemma hi_ge_lo {s : List ℚ} (hs : List.Sorted (· ≤ ·) s) {i : ℕ} (hi : i < s.length) :
    s.getD i 0 ≤ s.getD (i + 1) (s.getD i 0) := by
  by_cases hc : i + 1 < s.length
  · rw [getD_default_irrel s (i + 1) (s.getD i 0) 0 hc]
    exact sorted_getD_mono hs (Nat.le_succ i) hc
  · rw [List.getD_eq_default s (s.getD i 0) (by omega)]

/-- The interpolated value is at least the lower node. -/
lemma le_interpSorted {s : List ℚ} (hs : List.Sorted (· ≤ ·) s) (hn : s ≠ []) {h : ℚ}
    (h0 : 0 ≤ h) (h1 : h ≤ (s.length : ℚ) - 1) :
    s.getD (⌊h⌋).toNat 0 ≤ interpSorted s h := by
  have hi : (⌊h⌋).toNat < s.length := floor_idx_lt (List.length_pos.mpr hn) h0 h1
  have h2 := hi_ge_lo hs hi
  have h3 := frac_nonneg h0
  unfold interpSorted
  nlinarith

/-- The interpolated value is at most the upper node. -/
lemma interpSorted_le {s : List ℚ} (hs : List.Sorted (· ≤ ·) s) (hn : s ≠ []) {h : ℚ}
    (h0 : 0 ≤ h) (h1 : h ≤ (s.length : ℚ) - 1) :
    interpSorted s h ≤ s.getD ((⌊h⌋).toNat + 1) (s.getD (⌊h⌋).toNat 0) := by
  have hi : (⌊h⌋).toNat < s.length := floor_idx_lt (List.length_pos.mpr hn) h0 h1
  have h2 := hi_ge_lo hs hi
  have h3 := frac_nonneg h0
  have h4 := frac_le_one h0
  unfold interpSorted
  nlinarith

/-- Linear interpolation into a sorted list is monotone in the position. -/
lemma interpSorted_mono {s : List ℚ} (hs : List.Sorted (· ≤ ·) s) (hn : s ≠ []) {a b : ℚ}
    (h0 : 0 ≤ a) (hab : a ≤ b) (hb : b ≤ (s.length : ℚ) - 1) :
    interpSorted s a ≤ interpSorted s b := by
  have hlen : 0 < s.length := List.length_pos.mpr hn
  have hb0 : 0 ≤ b := h0.trans hab
  have ha1 : a ≤ (s.length : ℚ) - 1 := hab.trans hb
  have hia : (⌊a⌋).toNat < s.length := floor_idx_lt hlen h0 ha1
  have hib : (⌊b⌋).toNat < s.length := floor_idx_lt hlen hb0 hb
  have hij : (⌊a⌋).toNat ≤ (⌊b⌋).toNat := by
    have h1 := Int.floor_le_floor hab
    omega
  rcases Nat.lt_or_ge (⌊a⌋).toNat (⌊b⌋).toNat with hlt | hge
  · calc interpSorted s a
        ≤ s.getD ((⌊a⌋).toNat + 1) (s.getD (⌊a⌋).toNat 0) := interpSorted_le hs hn h0 ha1
      _ = s.getD ((⌊a⌋).toNat + 1) 0 :=
          getD_default_irrel s _ _ 0 (by omega)
      _ ≤ s.getD (⌊b⌋).toNat 0 := sorted_getD_mono hs (by omega) hib
      _ ≤ interpSorted s b := le_interpSorted hs hn hb0 hb
  · have heq : (⌊a⌋).toNat = (⌊b⌋).toNat := Nat.le_antisymm hij hge
    have h2 := hi_ge_lo hs hib
    unfold interpSorted
    rw [heq]
    have hfa : a - (((⌊b⌋).toNat : ℕ) : ℚ) ≤ b - (((⌊b⌋).toNat : ℕ) : ℚ) := by linarith
    nlinarith

/-- `np_percentile` is monotone in the percentile rank on `[0, 100]`. -/
lemma np_percentile_mono (xs : List ℚ) (hxs : xs ≠ []) {q1 q2 : ℚ}
    (h0 : 0 ≤ q1) (h12 : q1 ≤ q2) (h100 : q2 ≤ 100) :
    np_percentile xs q1 ≤ np_percentile xs q2 := by
  have hs : List.Sorted (· ≤ ·) (List.insertionSort (· ≤ ·) xs) :=
    List.sorted_insertionSort (· ≤ ·) xs
  have hsne : List.insertionSort (· ≤ ·) xs ≠ [] := by
    intro hnil
    have h1 := congrArg List.length hnil
    rw [List.length_insertionSort] at h1
    exact hxs (List.length_eq_zero.mp h1)
  have hlen : ((List.insertionSort (· ≤ ·) xs).length : ℚ) = (xs.length : ℚ) := by
    rw [List.length_insertionSort]
  have hn1 : (0 : ℚ) ≤ (xs.length : ℚ) - 1 := by
    have h1 : 1 ≤ xs.length := List.length_pos.mpr hxs
    have h2 : (1 : ℚ) ≤ (xs.length : ℚ) := by exact_mod_cast h1
    linarith
  unfold np_percentile
  apply interpSorted_mono hs hsne
  · exact mul_nonneg (by positivity) hn1
  · exact mul_le_mul_of_nonneg_right (by linarith) hn1
  · rw [hlen]
    calc q2 / 100 * ((xs.length : ℚ) - 1) ≤ 1 * ((xs.length : ℚ) - 1) :=
        mul_le_mul_of_nonneg_right (by linarith) hn1
      _ = (xs.length : ℚ) - 1 := one_mul _

/-- Interpolating anywhere inside a constant list returns the constant. -/
lemma interpSorted_const {s : List ℚ} {v : ℚ} (hall : ∀ x ∈ s, x = v) (hn : s ≠ [])
    {h : ℚ} (h0 : 0 ≤ h) (h1 : h ≤ (s.length : ℚ) - 1) : interpSorted s h = v := by
  have hi : (⌊h⌋).toNat < s.length := floor_idx_lt (List.length_pos.mpr hn) h0 h1
  have hlo : s.getD (⌊h⌋).toNat 0 = v := by
    rw [List.getD_eq_getElem s 0 hi]
    exact hall _ (List.getElem_mem hi)
  have hhi : s.getD ((⌊h⌋).toNat + 1) (s.getD (⌊h⌋).toNat 0) = v := by
    by_cases hc : (⌊h⌋).toNat + 1 < s.length
    · rw [List.getD_eq_getElem s _ hc]
      exact hall _ (List.getElem_mem hc)
    · rw [List.getD_eq_default s _ (by omega)]
      exact hlo
  unfold interpSorted
  rw [hhi, hlo]
  ring

/-- Any percentile of a constant nonempty sample is the constant. -/
lemma np_percentile_const (xs : List ℚ) (v : ℚ) (hall : ∀ x ∈ xs, x = v) (hxs : xs ≠ [])
    {q : ℚ} (h0 : 0 ≤ q) (h100 : q ≤ 100) : np_percentile xs q = v := by
  have hall2 : ∀ x ∈ List.insertionSort (· ≤ ·) xs, x = v := by
    intro x hx
    exact hall x ((List.mem_insertionSort (· ≤ ·)).mp hx)
  have hsne : List.insertionSort (· ≤ ·) xs ≠ [] := by
    intro hnil
    have h1 := congrArg List.length hnil
    rw [List.length_insertionSort] at h1
    exact hxs (List.length_eq_zero.mp h1)
  have hn1 : (0 : ℚ) ≤ (xs.length : ℚ) - 1 := by
    have h1 : 1 ≤ xs.length := List.length_pos.mpr hxs
    have h2 : (1 : ℚ) ≤ (xs.length : ℚ) := by exact_mod_cast h1
    linarith
  have hlen : ((List.insertionSort (· ≤ ·) xs).length : ℚ) = (xs.length : ℚ) := by
    rw [List.length_insertionSort]
  unfold np_percentile
  apply interpSorted_const hall2 hsne
  · exact mul_nonneg (by positivity) hn1
  · rw [hlen]
    calc q / 100 * ((xs.length : ℚ) - 1) ≤ 1 * ((xs.length : ℚ) - 1) :=
        mul_le_mul_of_nonneg_right (by linarith) hn1
      _ = (xs.length : ℚ) - 1 := one_mul _

/-- Day columns of a nonempty sample matrix are nonempty. -/
lemma column_ne_nil {M : List (List ℚ)} (hM : M ≠ []) (j : ℕ) : column M j ≠ [] := by
  intro hnil
  exact hM (List.map_eq_nil_iff.mp hnil)

/-- Mapping two functions over one list yields pointwise-related lists. -/
lemma forall₂_map_map {α β γ : Type} (l : List α) (f : α → β) (g : α → γ)
    (P : β → γ → Prop) (h : ∀ a ∈ l, P (f a) (g a)) :
    List.Forall₂ P (l.map f) (l.map g) := by
  induction l with
  | nil => exact List.Forall₂.nil
  | cons a t ih =>
    exact List.Forall₂.cons (h a (List.mem_cons_self a t))
      (ih (fun b hb => h b (List.mem_cons_of_mem a hb)))

/-- A list whose conversion contains a non-number fails to convert. -/
lemma tryMapFloat_error (l : List PyVal) (h : l.all isNum = false) :
    tryMapFloat l = Except.error NpErr.typeError := by
  induction l with
  | nil => simp at h
  | cons v vs ih =>
    rw [List.all_cons, Bool.and_eq_false_iff] at h
    cases h with
    | inl hv =>
      cases v with
      | num q => simp [isNum] at hv
      | seq l => rfl
      | other => rfl
    | inr hvs =>
      cases v with
      | num q =>
        show (match tryMapFloat vs with
          | Except.error e => Except.error e
          | Except.ok qs => Except.ok (q :: qs)) = Except.error NpErr.typeError
        rw [ih hvs]
      | seq l => rfl
      | other => rfl

end Covid19Figures

/-! ### Claim theorems -/

namespace Covid19Figures

/-- C1: the cumulative-count future series anchors its running sum at the
last observed cumulative total, not zero.  With `observed = [100, 110, 125]`
(`data_day_count = 2`) and every sample row's future segment the constant
draw `[20]`: in the `create_figure_0` construction the future cumulative
series' day-0 value is `125 + 20 = 145` for every sample row; in the
`create_figure_3_timeseries` construction (where a zero is inserted before
the cumulative sum) the plotted future slice `[1:]` likewise starts at 145
for every sample row; and in calendar terms the date of that first future
point, `mpl_dates_futu[1]`, is the date immediately following the last
observed data day. -/
theorem future_cum_anchor (cases_obs : List ℚ) (new_cases : List (List ℚ))
    (hobs : cases_obs = [100, 110, 125])
    (hrows : ∀ r ∈ new_cases, r.drop 2 = [20]) :
    (∀ M, cases_futu_fig0 cases_obs new_cases 2 = Except.ok M →
        ∀ r ∈ M, r.headD 0 = 145) ∧
    (∀ pd, prepareData cases_obs new_cases 2 = Except.ok pd →
        ∀ r ∈ pd.cum_c_futu, (r.drop 1).headD 0 = 145) ∧
    (∀ ndd : ℕ, (mpl_dates_futu ndd).getD 1 0 = date2num ((date_data_end ndd : ℤ) : ℚ) + 1) := by
  subst hobs
  refine ⟨?_, ?_, ?_⟩
  · intro M hM
    rw [cases_futu_fig0, if_neg (by simp)] at hM
    injection hM with hM
    subst hM
    intro r hr
    obtain ⟨a, ha, rfl⟩ := List.mem_map.mp hr
    rw [hrows a ha]
    show ((0 + 20 + [(100 : ℚ), 110, 125].getLastD 0) :: []).headD 0 = 145
    norm_num [List.getLastD]
  · intro pd hok
    rw [prepareData, if_neg (by simp)] at hok
    injection hok with hok
    subst hok
    intro r hr
    obtain ⟨a, ha, rfl⟩ := List.mem_map.mp hr
    rw [hrows a ha]
    show ((((0 : ℚ) + 0) :: cumsumFrom (0 + 0) [20]).map
        (· + [(100 : ℚ), 110, 125].getLastD 0) |>.drop 1).headD 0 = 145
    norm_num [cumsumFrom, List.getLastD]
  · intro ndd
    have h1 : 1 < ((List.range (num_days_futu + 1)).map
        (fun j : ℕ => conv_time_to_mpl_dates (j : ℚ) + (diff_to_0 ndd : ℚ))).length := by
      simp [num_days_futu]
    rw [mpl_dates_futu, List.getD_eq_getElem _ _ h1]
    simp only [List.getElem_map, List.getElem_range]
    simp only [conv_time_to_mpl_dates, date2num, date_begin_sim, date_data_end, diff_to_0,
      diff_data_sim]
    push_cast
    ring

/-- C1 witness: the theorem instantiated at `observed = [100, 110, 125]` and
three identical sample rows `[10, 15, 20]` (future segment `[20]`). -/
theorem future_cum_anchor_witness :
    (∀ r ∈ ([[10, 15, 20], [10, 15, 20], [10, 15, 20]] : List (List ℚ)), r.drop 2 = [20]) ∧
    ((∀ M, cases_futu_fig0 [100, 110, 125] [[10, 15, 20], [10, 15, 20], [10, 15, 20]] 2 =
        Except.ok M → ∀ r ∈ M, r.headD 0 = 145) ∧
      (∀ pd, prepareData [100, 110, 125] [[10, 15, 20], [10, 15, 20], [10, 15, 20]] 2 =
        Except.ok pd → ∀ r ∈ pd.cum_c_futu, (r.drop 1).headD 0 = 145) ∧
      (∀ ndd : ℕ, (mpl_dates_futu ndd).getD 1 0 =
        date2num ((date_data_end ndd : ℤ) : ℚ) + 1)) :=
  ⟨by simp, future_cum_anchor [100, 110, 125] [[10, 15, 20], [10, 15, 20], [10, 15, 20]]
    rfl (by simp)⟩

/-- C2: for every coverage level in (0, 1), every sample matrix and every
day column, the summary satisfies lower ≤ median and median ≤ upper: the
`(1 - coverage)/2` percentile is below the 50th, which is below the
`1 - (1 - coverage)/2` percentile. -/
theorem summarize_ordered (M : List (List ℚ)) (coverage : ℚ) (j : ℕ)
    (hM : M ≠ []) (hc0 : 0 < coverage) (hc1 : coverage < 1) :
    (summarize M coverage j).lower ≤ (summarize M coverage j).median ∧
    (summarize M coverage j).median ≤ (summarize M coverage j).upper := by
  have hcol : column M j ≠ [] := column_ne_nil hM j
  constructor
  · exact np_percentile_mono (column M j) hcol (by linarith) (by linarith) (by linarith)
  · exact np_percentile_mono (column M j) hcol (by linarith) (by linarith) (by linarith)

/-- C2 witness: the ordering at the concrete matrix `[[1, 2], [3, 4]]`,
coverage 0.95, day column 0. -/
theorem summarize_ordered_witness :
    ([[1, 2], [3, 4]] : List (List ℚ)) ≠ [] ∧ (0 : ℚ) < 19 / 20 ∧ (19 : ℚ) / 20 < 1 ∧
    ((summarize [[1, 2], [3, 4]] (19 / 20) 0).lower ≤
        (summarize [[1, 2], [3, 4]] (19 / 20) 0).median ∧
      (summarize [[1, 2], [3, 4]] (19 / 20) 0).median ≤
        (summarize [[1, 2], [3, 4]] (19 / 20) 0).upper) :=
  ⟨by simp, by norm_num, by norm_num,
    summarize_ordered [[1, 2], [3, 4]] (19 / 20) 0 (by simp) (by norm_num) (by norm_num)⟩

/-- C3 counterexample: with `observed` of length 4 but `data_day_count`
declared as 2, the aligner does not raise any error: the PREPARE DATA
computations succeed, numpy slicing silently truncating the draws, and
return concrete values. -/
theorem prepareData_no_length_error_cex :
    prepareData [100, 110, 125, 140] [[10, 15, 20]] 2 =
      Except.ok
        { new_c_obsd := [10, 15, 15]
          cum_c_obsd := [100, 110, 125, 140]
          new_c_past := [[10, 15]]
          new_c_futu := [[20]]
          cum_c_past := [[100, 110, 125]]
          cum_c_futu := [[140, 160]] } := by
  with_unfolding_all decide

/-- C3 amended: the aligner performs no length validation at all — for
every observed sequence, draws matrix and declared day count it succeeds
whenever the observed sequence is nonempty (slicing silently truncates);
in particular it raises no error when observed has length 4 and
data_day_count is 2. -/
theorem prepareData_total (cases_obs : List ℚ) (new_cases : List (List ℚ)) (ndd : ℕ)
    (h : cases_obs ≠ []) :
    ∃ pd, prepareData cases_obs new_cases ndd = Except.ok pd := by
  rw [prepareData, if_neg h]
  exact ⟨_, rfl⟩

/-- C3 witness: the amended claim at the counterexample's own input. -/
theorem prepareData_total_witness :
    ([100, 110, 125, 140] : List ℚ) ≠ [] ∧
    ∃ pd, prepareData [100, 110, 125, 140] [[10, 15, 20]] 2 = Except.ok pd :=
  ⟨by simp, prepareData_total [100, 110, 125, 140] [[10, 15, 20]] 2 (by simp)⟩

/-- C4: the calendar mapper is affine with the configured reference date
as origin: offset 0 maps to the simulation begin date, and
`to_date(n) - to_date(0) = n` days for every integer `n`, positive or
negative. -/
theorem clock_affine :
    conv_time_to_mpl_dates 0 = date2num ((date_begin_sim : ℤ) : ℚ) ∧
    ∀ n : ℤ, conv_time_to_mpl_dates (n : ℚ) - conv_time_to_mpl_dates 0 = (n : ℚ) := by
  constructor
  · simp [conv_time_to_mpl_dates]
  · intro n
    simp only [conv_time_to_mpl_dates, date2num]
    ring

/-- C5: for every non-empty cumulative sequence, first differences followed
by the prefix sum anchored at the original first value reproduce the
original sequence exactly — in the `create_figure_3_timeseries` form (with
the inserted zero) the whole sequence is recovered, and in the
`create_figure_0` form (without it) the tail is recovered. -/
theorem cum_inc_roundtrip (xs : List ℚ) (h : xs ≠ []) :
    (np_cumsum (np_insert0 (np_diff xs))).map (· + xs.headD 0) = xs ∧
    (np_cumsum (np_diff xs)).map (· + xs.headD 0) = xs.tail := by
  obtain ⟨x, t, rfl⟩ : ∃ x t, xs = x :: t := by
    cases xs with
    | nil => exact absurd rfl h
    | cons x t => exact ⟨x, t, rfl⟩
  constructor
  · show ((0 + 0) :: cumsumFrom (0 + 0) (np_diff (x :: t))).map (· + (x :: t).headD 0) = x :: t
    rw [List.map_cons]
    have h0 : (0 : ℚ) + 0 = 0 := by ring
    rw [h0]
    have h1 : (0 : ℚ) + (x :: t).headD 0 = x := by simp
    rw [h1]
    have h2 : (x :: t).headD 0 = x - 0 := by simp
    rw [h2, cumsumFrom_diff_shift t x 0]
  · have h2 : (x :: t).headD 0 = x - 0 := by simp
    rw [np_cumsum, h2, cumsumFrom_diff_shift t x 0]
    rfl

/-- C5 witness: the round trip at the concrete sequence `[100, 110, 125]`. -/
theorem cum_inc_roundtrip_witness :
    ([100, 110, 125] : List ℚ) ≠ [] ∧
    ((np_cumsum (np_insert0 (np_diff [100, 110, 125]))).map
        (· + ([100, 110, 125] : List ℚ).headD 0) = [100, 110, 125] ∧
      (np_cumsum (np_diff [100, 110, 125])).map
        (· + ([100, 110, 125] : List ℚ).headD 0) = ([100, 110, 125] : List ℚ).tail) :=
  ⟨by simp, cum_inc_roundtrip [100, 110, 125] (by simp)⟩

/-- C6: `format_median_ci([5.0, 5.0, 5.0], precision=2)` returns exactly the
two-line label `"Median: 5.00\nCI: [5.00, 5.00]"`, all three values at
fixed decimal precision 2. -/
theorem print_median_CI_const :
    print_median_CI [5, 5, 5] 2 = Except.ok "Median: 5.00\nCI: [5.00, 5.00]" := by
  with_unfolding_all decide

/-- C7: for every sample matrix and every day column whose sample values
all equal one value `v` — in particular a constant matrix or a matrix with
a single sample row — the summarizer returns median = lower = upper = v
for that day. -/
theorem summarize_const (M : List (List ℚ)) (coverage : ℚ) (j : ℕ) (v : ℚ)
    (hM : M ≠ []) (hall : ∀ x ∈ column M j, x = v) (hc0 : 0 < coverage) (hc1 : coverage < 1) :
    summarize M coverage j = { lower := v, median := v, upper := v } := by
  have hcol : column M j ≠ [] := column_ne_nil hM j
  unfold summarize
  rw [np_median, np_percentile_const _ v hall hcol (by linarith) (by linarith),
    np_percentile_const _ v hall hcol (by linarith) (by linarith),
    np_percentile_const _ v hall hcol (by linarith) (by linarith)]

/-- C7 witness: the single-sample-row matrix `[[5]]` at coverage 0.95,
day column 0, value 5. -/
theorem summarize_const_witness :
    ([[5]] : List (List ℚ)) ≠ [] ∧ (∀ x ∈ column [[5]] 0, x = (5 : ℚ)) ∧
    (0 : ℚ) < 19 / 20 ∧ (19 : ℚ) / 20 < 1 ∧
    summarize [[5]] (19 / 20) 0 = { lower := 5, median := 5, upper := 5 } :=
  ⟨by simp, by simp [column], by norm_num, by norm_num,
    summarize_const [[5]] (19 / 20) 0 5 (by simp) (by simp [column]) (by norm_num)
      (by norm_num)⟩

/-- C8: if a non-numeric offset — neither a number nor a sequence of
numbers — is passed to the calendar mapper, the call fails with the type
conversion error rather than returning a value: the iterating branch
fails, the bare except falls back to `float(arr)`, and that conversion
raises. -/
theorem conv_nonnumeric (v : PyVal) (h : isNumericOffset v = false) :
    conv_time_to_mpl_dates_dyn v = Except.error NpErr.typeError := by
  cases v with
  | num q => simp [isNumericOffset] at h
  | other => rfl
  | seq l =>
    have hl : l.all isNum = false := h
    show (match tryMapFloat l with
      | Except.ok qs =>
          Except.ok (MplDates.arr (qs.map (fun q => date2num ((date_begin_sim : ℚ) + q))))
      | Except.error _ =>
        match pyFloat (PyVal.seq l) with
        | Except.ok q => Except.ok (MplDates.scalar (date2num ((date_begin_sim : ℚ) + q)))
        | Except.error e => Except.error e) = Except.error NpErr.typeError
    rw [tryMapFloat_error l hl]
    rfl

/-- C8 witness: a non-numeric object fails with the type conversion error. -/
theorem conv_nonnumeric_witness :
    isNumericOffset PyVal.other = false ∧
    conv_time_to_mpl_dates_dyn PyVal.other = Except.error NpErr.typeError :=
  ⟨rfl, conv_nonnumeric PyVal.other rfl⟩

/-- C9: for every empty input array `format_median_ci` fails with the
empty-input error (the percentile computation raises); for every non-empty
numeric array it does not throw and returns a label. -/
theorem print_median_CI_empty_or_ok (arr : List ℚ) (p : ℕ) :
    (arr = [] → print_median_CI arr p = Except.error NpErr.emptyInput) ∧
    (arr ≠ [] → ∃ s, print_median_CI arr p = Except.ok s) := by
  constructor
  · intro h
    subst h
    rfl
  · intro h
    rw [print_median_CI, np_percentile_exc, if_neg h, np_percentile_exc, if_neg h]
    exact ⟨_, rfl⟩

/-- C9 witness: the empty array fails with the empty-input error, and the
non-empty array `[5, 5, 5]` returns a label. -/
theorem print_median_CI_empty_or_ok_witness :
    print_median_CI [] 2 = Except.error NpErr.emptyInput ∧
    ∃ s, print_median_CI [5, 5, 5] 2 = Except.ok s :=
  ⟨(print_median_CI_empty_or_ok [] 2).1 rfl,
    (print_median_CI_empty_or_ok [5, 5, 5] 2).2 (by simp)⟩

/-- C10: in the series alignment of `create_figure_3_timeseries`, each row
of the past cumulative view has exactly one more day column than the
corresponding row of the past new-cases matrix, and its first entry equals
the first observed cumulative count `cases_obs[0]` (the inserted zero makes
the fit cumulative series start exactly at the anchor value). -/
theorem cum_c_past_shape (cases_obs : List ℚ) (new_cases : List (List ℚ)) (ndd : ℕ)
    (pd : PreparedData) (hok : prepareData cases_obs new_cases ndd = Except.ok pd) :
    List.Forall₂ (fun c p => c.length = p.length + 1 ∧ c.headD 0 = cases_obs.headD 0)
      pd.cum_c_past pd.new_c_past := by
  rw [prepareData] at hok
  by_cases hobs : cases_obs = []
  · rw [if_pos hobs] at hok
    exact absurd hok (by simp)
  · rw [if_neg hobs] at hok
    injection hok with hok
    subst hok
    apply forall₂_map_map
    intro r hr
    constructor
    · simp [np_cumsum, np_insert0, cumsumFrom_length]
    · show (((0 + 0 + cases_obs.headD 0)) ::
        (cumsumFrom (0 + 0) (r.take ndd)).map (· + cases_obs.headD 0)).headD 0 =
        cases_obs.headD 0
      simp

/-- C10 witness: the shape and anchoring at `observed = [100, 110, 125]`,
draws `[[10, 15, 20]]`, `data_day_count = 2`. -/
theorem cum_c_past_shape_witness :
    List.Forall₂
      (fun c p => c.length = p.length + 1 ∧ c.headD 0 = ([100, 110, 125] : List ℚ).headD 0)
      [[(100 : ℚ), 110, 125]] [[(10 : ℚ), 15]] :=
  cum_c_past_shape [100, 110, 125] [[10, 15, 20]] 2
    { new_c_obsd := [10, 15]
      cum_c_obsd := [100, 110, 125]
      new_c_past := [[10, 15]]
      new_c_futu := [[20]]
      cum_c_past := [[100, 110, 125]]
      cum_c_futu := [[125, 145]] }
    (by with_unfolding_all decide)

end Covid19Figures
